import Mathlib

set_option autoImplicit false

/-!
Shallow embedding of `src/backend/distributed/utils/enable_ssl.c` (Citus
automatic TLS bootstrap).  The build modelled is the one with `USE_SSL`
defined and `PG_VERSION_NUM >= 100000`, i.e. the branch in which all of the
claims' code is live.

External collaborators are modelled as follows:

* OpenSSL objects (RSA keys, X509 certificates) are modelled structurally;
  outcomes of fallible OpenSSL/libc calls (allocations, key generation,
  signing, `fopen`, PEM writes) are supplied by an `OpenSSLEnv` oracle,
  one field per call site.
* `ereport(ERROR, ...)` performs a non-local exit of the enclosing
  administrative transaction; it is modelled as `Except.error`.  The error
  value carries the state at the raise point, because file writes already
  performed persist across the abort (no rollback of persisted files).
* The file system is a map from path to file content; `fopen(path, "wb")`
  truncates, a successful `PEM_write_*` stores the PEM encoding.
* `AlterSystemSetConfigFile` appends the statement to a durable
  configuration log; `pg_reload_conf` bumps a reload counter.
* `MemoryContextRegisterResetCallback` appends to a registration list; at
  context reset every registered callback runs exactly once, so the
  release multiset of the enclosing scope's teardown is that list.
-/

namespace EnableSSL

/-- RSA key material as produced by `RSA_generate_key_ex(rsa, bits, e, NULL)`:
the requested modulus size, the public exponent taken from the BIGNUM
argument, and the randomly generated modulus (abstracted as a number). -/
structure RSAKey where
  modulusBits : Nat
  pubExponent : Nat
  modulus : Nat
  deriving DecidableEq

/-- The public part of an RSA key (what `X509_set_pubkey` embeds into a
certificate and what signature verification is checked against). -/
structure RSAPub where
  modulusBits : Nat
  pubExponent : Nat
  modulus : Nat
  deriving DecidableEq

/-- Public projection of RSA key material. -/
def RSAKey.pub (k : RSAKey) : RSAPub :=
  { modulusBits := k.modulusBits, pubExponent := k.pubExponent, modulus := k.modulus }

/-- `EVP_PKEY`: a key wrapper, empty after `EVP_PKEY_new` and holding RSA
material after a successful `EVP_PKEY_assign_RSA`. -/
structure EVP_PKEY where
  assigned : Option RSAKey
  deriving DecidableEq

/-- Public part carried by an `EVP_PKEY` (none while unassigned). -/
def EVP_PKEY.pub (k : EVP_PKEY) : Option RSAPub :=
  k.assigned.map RSAKey.pub

/-- `X509_NAME`: only the common-name attribute is ever set by this file. -/
structure X509_NAME where
  commonName : Option String
  deriving DecidableEq

/-- The signature attached to a certificate by `X509_sign(cert, key, md)`:
the message digest used and the signing key. -/
structure SigInfo where
  alg : String
  signer : EVP_PKEY
  deriving DecidableEq

/-- `X509` certificate structure; fields are those this file touches. -/
structure X509 where
  serialNumber : Int
  notBefore : Nat
  notAfter : Nat
  pubkey : Option RSAPub
  subjectName : X509_NAME
  issuerName : X509_NAME
  signature : Option SigInfo
  deriving DecidableEq

/-- A freshly allocated certificate, as returned by `X509_new()`. -/
def X509_blank : X509 :=
  { serialNumber := 0, notBefore := 0, notAfter := 0, pubkey := none,
    subjectName := { commonName := none }, issuerName := { commonName := none },
    signature := none }

/-- `X509_verify(cert, key)`: the signature on the certificate checks out
against `key` exactly when the signature exists and was produced by a key
with the same public part. -/
def X509_verify (certificate : X509) (key : EVP_PKEY) : Bool :=
  match certificate.signature with
  | none => false
  | some sig => decide (sig.signer.pub = key.pub)

/-- Content of a file on disk. -/
inductive FileContent where
  | pemPrivateKey (key : EVP_PKEY)
  | pemX509 (cert : X509)
  | otherBytes (bytes : List Nat)
  deriving DecidableEq

/-- `SSL_CTX_use_certificate_chain_file(ctx, path) == 1`: loading succeeds
exactly when the file exists and holds a PEM-encoded certificate. -/
def certificateChainFileLoads : Option FileContent → Bool
  | some (.pemX509 _) => true
  | _ => false

/-- The OpenSSL resources this file allocates and may register with
`EnsureReleaseOpenSSLResource` (the callback/argument pairs, by kind). -/
inductive OpenSSLResource where
  | sslCtxRes
  | evpPkeyRes
  | bignumRes
  | rsaRes
  | x509Res
  deriving DecidableEq

/-- Errors raised via `ereport(ERROR, ...)`, one constructor per call site. -/
inductive CitusError where
  | keyAllocFailure
  | exponentFailure
  | rsaGenFailure
  | rsaAssignFailure
  | x509AllocFailure
  | signFailure
  | keyFileOpenFailure (path : String)
  | keyWriteFailure
  | certFileOpenFailure (path : String)
  | certWriteFailure
  | storeFailure
  deriving DecidableEq

/-- The observable state: postgres globals read by this file (`EnableSSL`,
the `sslmode` connection parameter, `ssl_cert_file`, `ssl_key_file`), the
file system, the durable configuration-statement log, the reload-request
count, the memory-context reset callbacks registered so far, and two event
counters instrumenting how many keys/certificates have been generated. -/
structure PgState where
  EnableSSL : Bool
  sslmode : String
  ssl_cert_file : String
  ssl_key_file : String
  fs : String → Option FileContent
  configStatements : List String
  reloadCount : Nat
  registered : List OpenSSLResource
  keysGenerated : Nat
  certsGenerated : Nat

/-- Oracle for the outcomes of fallible external calls, one field per call
site, plus the entropy consumed by key generation and the current time. -/
structure OpenSSLEnv where
  sslCtxNewOk : Bool
  evpPkeyNewOk : Bool
  bnSetWordOk : Bool
  rsaGenerateKeyOk : Bool
  evpPkeyAssignOk : Bool
  x509NewOk : Bool
  x509SignOk : Bool
  fopenOk : String → Bool
  pemWritePrivateKeyOk : Bool
  pemWriteX509Ok : Bool
  generatedModulus : Nat
  currentTime : Nat

/-- Update one path of the file system. -/
def fsWrite (fs : String → Option FileContent) (path : String)
    (content : FileContent) : String → Option FileContent :=
  fun p => if p = path then some content else fs p

/-- `#define ENABLE_SSL_QUERY`. -/
def ENABLE_SSL_QUERY : String := "ALTER SYSTEM SET ssl TO on;"

/-- `#define RESET_CITUS_NODE_CONNINFO`. -/
def RESET_CITUS_NODE_CONNINFO : String :=
  "ALTER SYSTEM SET citus.node_conninfo TO \x27sslmode=prefer\x27;"

/-- `#define CITUS_AUTO_SSL_COMMON_NAME`. -/
def CITUS_AUTO_SSL_COMMON_NAME : String := "citus-auto-ssl"

/-- OpenSSL's `RSA_F4` constant, `0x10001`. -/
def RSA_F4 : Nat := 65537

/-- `EnsureReleaseOpenSSLResource`: registers an allocated OpenSSL resource
to be freed when the current memory context is reset
(`MemoryContextRegisterResetCallback` appends one callback). -/
def EnsureReleaseOpenSSLResource (res : OpenSSLResource) (s : PgState) : PgState :=
  { s with registered := s.registered ++ [res] }

/-- The callbacks the enclosing scope's teardown runs, each exactly once:
precisely the registered list. -/
def scopeTeardownReleases (s : PgState) : List OpenSSLResource :=
  s.registered

/-- `ShouldUseAutoSSL`: reads the `sslmode` connection parameter via
`GetConnParam` and returns whether `strcmp(sslmode, "require") == 0`.
Pure: it returns no updated state. -/
def ShouldUseAutoSSL (s : PgState) : Bool :=
  if s.sslmode = "require" then true else false

/-- `GeneratePrivateKey`: generates an RSA private key of 2048 bits with
public exponent `RSA_F4`.  `EVP_PKEY_new` and `BN_new` results are
registered with `EnsureReleaseOpenSSLResource`; the `RSA_new` result is
not.  Every failure is an `ereport(ERROR, ...)`, so the `return NULL`
statements after them in the source are unreachable. -/
def GeneratePrivateKey (env : OpenSSLEnv) (s : PgState) :
    Except (CitusError × PgState) (EVP_PKEY × PgState) :=
  if !env.evpPkeyNewOk then
    .error (.keyAllocFailure, s)
  else
    let s := EnsureReleaseOpenSSLResource .evpPkeyRes s
    let s := EnsureReleaseOpenSSLResource .bignumRes s
    if !env.bnSetWordOk then
      .error (.exponentFailure, s)
    else
      let exponent : Nat := RSA_F4
      if !env.rsaGenerateKeyOk then
        .error (.rsaGenFailure, s)
      else
        let rsa : RSAKey :=
          { modulusBits := 2048, pubExponent := exponent,
            modulus := env.generatedModulus }
        if !env.evpPkeyAssignOk then
          .error (.rsaAssignFailure, s)
        else
          .ok ({ assigned := some rsa },
               { s with keysGenerated := s.keysGenerated + 1 })

/-- `CreateCertificate`: builds the self-signed certificate, mirroring the
source's field assignments in order, then signs with SHA-256. -/
def CreateCertificate (env : OpenSSLEnv) (privateKey : EVP_PKEY) (s : PgState) :
    Except (CitusError × PgState) (X509 × PgState) :=
  if !env.x509NewOk then
    .error (.x509AllocFailure, s)
  else
    let certificate := X509_blank
    let s := EnsureReleaseOpenSSLResource .x509Res s
    let certificate := { certificate with serialNumber := 1 }
    let certificate := { certificate with notBefore := env.currentTime }
    let certificate := { certificate with notAfter := env.currentTime }
    let certificate := { certificate with pubkey := privateKey.pub }
    let subjectName :=
      { certificate.subjectName with commonName := some CITUS_AUTO_SSL_COMMON_NAME }
    let certificate := { certificate with subjectName := subjectName }
    let certificate := { certificate with issuerName := subjectName }
    if !env.x509SignOk then
      .error (.signFailure, s)
    else
      let certificate :=
        { certificate with signature := some { alg := "sha256", signer := privateKey } }
      .ok (certificate, { s with certsGenerated := s.certsGenerated + 1 })

/-- `StoreCertificate`: writes the private key (PEM, unencrypted) to
`ssl_key_file`, then the certificate (PEM) to `ssl_cert_file`; each
`fopen(..., "wb")` truncates, each failure raises an error. -/
def StoreCertificate (env : OpenSSLEnv) (privateKey : EVP_PKEY)
    (certificate : X509) (s : PgState) :
    Except (CitusError × PgState) (Bool × PgState) :=
  let privateKeyFilename := s.ssl_key_file
  let certificateFilename := s.ssl_cert_file
  if !env.fopenOk privateKeyFilename then
    .error (.keyFileOpenFailure privateKeyFilename, s)
  else
    if !env.pemWritePrivateKeyOk then
      let s := { s with fs := fsWrite s.fs privateKeyFilename (.otherBytes []) }
      .error (.keyWriteFailure, s)
    else
      let s :=
        { s with fs := fsWrite s.fs privateKeyFilename (.pemPrivateKey privateKey) }
      if !env.fopenOk certificateFilename then
        .error (.certFileOpenFailure certificateFilename, s)
      else
        if !env.pemWriteX509Ok then
          let s := { s with fs := fsWrite s.fs certificateFilename (.otherBytes []) }
          .error (.certWriteFailure, s)
        else
          let s :=
            { s with fs := fsWrite s.fs certificateFilename (.pemX509 certificate) }
          .ok (true, s)

/-- `CreateCertificatesWhenNeeded`: probes for an existing certificate with
a transient SSL context; when none loads, generates and stores a fresh
key/certificate pair.  Returns whether new certificates were created.
A failed `SSL_CTX_new` returns `false` without raising.  The null checks
on `GeneratePrivateKey`/`CreateCertificate` results in the source are
unreachable (those functions raise instead of returning null), as is the
`!certificateWritten` branch (`StoreCertificate` only returns true). -/
def CreateCertificatesWhenNeeded (env : OpenSSLEnv) (s : PgState) :
    Except (CitusError × PgState) (Bool × PgState) :=
  if !env.sslCtxNewOk then
    .ok (false, s)
  else
    let s := EnsureReleaseOpenSSLResource .sslCtxRes s
    if certificateChainFileLoads (s.fs s.ssl_cert_file) then
      .ok (false, s)
    else
      match GeneratePrivateKey env s with
      | .error e => .error e
      | .ok (privateKey, s) =>
        match CreateCertificate env privateKey s with
        | .error e => .error e
        | .ok (certificate, s) =>
          match StoreCertificate env privateKey certificate s with
          | .error e => .error e
          | .ok (certificateWritten, s) =>
            if !certificateWritten then
              .error (.storeFailure, s)
            else
              .ok (true, s)

/-- `citus_setup_ssl` (the `USE_SSL`, postgres >= 10 build): when ssl is off
and `ShouldUseAutoSSL` holds, persist `ALTER SYSTEM SET ssl TO on`, ensure
certificates exist, and request one configuration reload
(`pg_reload_conf` + local `ProcessConfigFile`); otherwise do nothing. -/
def citus_setup_ssl (env : OpenSSLEnv) (s : PgState) :
    Except (CitusError × PgState) PgState :=
  if !s.EnableSSL && ShouldUseAutoSSL s then
    let s := { s with configStatements := s.configStatements ++ [ENABLE_SSL_QUERY] }
    match CreateCertificatesWhenNeeded env s with
    | .error e => .error e
    | .ok (_, s) => .ok { s with reloadCount := s.reloadCount + 1 }
  else
    .ok s

/-- `citus_reset_default_for_node_conninfo`: unconditionally persists
`ALTER SYSTEM SET citus.node_conninfo TO 'sslmode=prefer'` and requests
one configuration reload. -/
def citus_reset_default_for_node_conninfo (s : PgState) : PgState :=
  { s with
    configStatements := s.configStatements ++ [RESET_CITUS_NODE_CONNINFO],
    reloadCount := s.reloadCount + 1 }

/-- Post-state of a run, whether it completed or raised. -/
def finalState {α : Type} :
    Except (CitusError × PgState) (α × PgState) → PgState
  | .ok (_, s) => s
  | .error (_, s) => s

/-! Concrete fixtures used by witnesses and counterexamples. -/

/-- An environment in which every external call succeeds. -/
def envOK : OpenSSLEnv :=
  { sslCtxNewOk := true, evpPkeyNewOk := true, bnSetWordOk := true,
    rsaGenerateKeyOk := true, evpPkeyAssignOk := true, x509NewOk := true,
    x509SignOk := true, fopenOk := fun _ => true, pemWritePrivateKeyOk := true,
    pemWriteX509Ok := true, generatedModulus := 7, currentTime := 42 }

/-- A fresh node: ssl off, sslmode=require, empty disk, empty logs. -/
def s0 : PgState :=
  { EnableSSL := false, sslmode := "require", ssl_cert_file := "server.crt",
    ssl_key_file := "server.key", fs := fun _ => none, configStatements := [],
    reloadCount := 0, registered := [], keysGenerated := 0, certsGenerated := 0 }

/-- The key `GeneratePrivateKey envOK` produces. -/
def keyOK : EVP_PKEY :=
  { assigned := some { modulusBits := 2048, pubExponent := 65537, modulus := 7 } }

/-- The certificate `CreateCertificate envOK keyOK` produces. -/
def certOK : X509 :=
  { serialNumber := 1, notBefore := 42, notAfter := 42, pubkey := keyOK.pub,
    subjectName := { commonName := some "citus-auto-ssl" },
    issuerName := { commonName := some "citus-auto-ssl" },
    signature := some { alg := "sha256", signer := keyOK } }

/-- The state after a full successful `CreateCertificatesWhenNeeded envOK s0`. -/
def sFinal : PgState :=
  { s0 with
    fs := fsWrite (fsWrite s0.fs "server.key" (.pemPrivateKey keyOK))
      "server.crt" (.pemX509 certOK),
    registered := [.sslCtxRes, .evpPkeyRes, .bignumRes, .x509Res],
    keysGenerated := 1, certsGenerated := 1 }

/-- Environment for C6's witness: only the key file can be opened. -/
def envC6 : OpenSSLEnv :=
  { envOK with fopenOk := fun p => decide (p = "server.key") }

/-- Environment in which the transient probe context allocation fails. -/
def envCtxFail : OpenSSLEnv :=
  { envOK with sslCtxNewOk := false }

/-- Environment in which `EVP_PKEY_assign_RSA` fails (after the raw RSA key
material has been generated). -/
def envAssignFail : OpenSSLEnv :=
  { envOK with evpPkeyAssignOk := false }

/-- The certificate `CreateCertificate env key` builds when it succeeds. -/
def certBuilt (env : OpenSSLEnv) (key : EVP_PKEY) : X509 :=
  { serialNumber := 1, notBefore := env.currentTime, notAfter := env.currentTime,
    pubkey := key.pub,
    subjectName := { commonName := some CITUS_AUTO_SSL_COMMON_NAME },
    issuerName := { commonName := some CITUS_AUTO_SSL_COMMON_NAME },
    signature := some { alg := "sha256", signer := key } }

/-- The key `GeneratePrivateKey env` returns when it succeeds. -/
def keyBuilt (env : OpenSSLEnv) : EVP_PKEY :=
  { assigned := some { modulusBits := 2048, pubExponent := RSA_F4,
                       modulus := env.generatedModulus } }

/-- The post-state of a fully successful `CreateCertificatesWhenNeeded`. -/
def credentialsCreatedState (env : OpenSSLEnv) (s : PgState) : PgState :=
  { s with
    registered := s.registered ++ [.sslCtxRes] ++ [.evpPkeyRes] ++ [.bignumRes]
      ++ [.x509Res],
    keysGenerated := s.keysGenerated + 1,
    certsGenerated := s.certsGenerated + 1,
    fs := fsWrite (fsWrite s.fs s.ssl_key_file (.pemPrivateKey (keyBuilt env)))
      s.ssl_cert_file (.pemX509 (certBuilt env (keyBuilt env))) }

/-- A state whose certificate file already holds a loadable certificate. -/
def sCert : PgState :=
  { s0 with fs := fsWrite s0.fs "server.crt" (.pemX509 certOK) }

/-- Environment in which `X509_sign` fails. -/
def envSignFail : OpenSSLEnv :=
  { envOK with x509SignOk := false }

end EnableSSL

namespace EnableSSL

/-- Inversion: a successful `GeneratePrivateKey` run pins down the oracle
flags, the returned key, and the post-state. -/
theorem generatePrivateKey_ok_inv (env : OpenSSLEnv) (s : PgState)
    (key : EVP_PKEY) (s' : PgState)
    (h : GeneratePrivateKey env s = .ok (key, s')) :
    env.evpPkeyNewOk = true ∧ env.bnSetWordOk = true ∧
    env.rsaGenerateKeyOk = true ∧ env.evpPkeyAssignOk = true ∧
    key = keyBuilt env ∧
    s' = { s with registered := s.registered ++ [.evpPkeyRes] ++ [.bignumRes],
                  keysGenerated := s.keysGenerated + 1 } := by
  unfold GeneratePrivateKey EnsureReleaseOpenSSLResource at h
  split at h
  · exact absurd h (by simp)
  next h1 =>
    split at h
    · exact absurd h (by simp)
    next h2 =>
      split at h
      · exact absurd h (by simp)
      next h3 =>
        split at h
        · exact absurd h (by simp)
        next h4 =>
          simp only [Except.ok.injEq, Prod.mk.injEq] at h
          obtain ⟨hk, hs⟩ := h
          exact ⟨by simpa using h1, by simpa using h2, by simpa using h3,
                 by simpa using h4, hk.symm, hs.symm⟩

/-- Inversion: a successful `CreateCertificate` run pins down the flags,
the built certificate, and the post-state. -/
theorem createCertificate_ok_inv (env : OpenSSLEnv) (key : EVP_PKEY)
    (s : PgState) (c : X509) (s' : PgState)
    (h : CreateCertificate env key s = .ok (c, s')) :
    env.x509NewOk = true ∧ env.x509SignOk = true ∧
    c = certBuilt env key ∧
    s' = { s with registered := s.registered ++ [.x509Res],
                  certsGenerated := s.certsGenerated + 1 } := by
  unfold CreateCertificate EnsureReleaseOpenSSLResource at h
  split at h
  · exact absurd h (by simp)
  next h1 =>
    split at h
    · exact absurd h (by simp)
    next h2 =>
      simp only [Except.ok.injEq, Prod.mk.injEq] at h
      obtain ⟨hc, hs⟩ := h
      exact ⟨by simpa using h1, by simpa using h2, hc.symm, hs.symm⟩

/-- Inversion: a completed `StoreCertificate` run returned true, every file
operation succeeded, and both files were written. -/
theorem storeCertificate_ok_inv (env : OpenSSLEnv) (key : EVP_PKEY)
    (c : X509) (s : PgState) (b : Bool) (s' : PgState)
    (h : StoreCertificate env key c s = .ok (b, s')) :
    b = true ∧ env.fopenOk s.ssl_key_file = true ∧
    env.pemWritePrivateKeyOk = true ∧
    env.fopenOk s.ssl_cert_file = true ∧ env.pemWriteX509Ok = true ∧
    s' = { s with fs := fsWrite (fsWrite s.fs s.ssl_key_file (.pemPrivateKey key))
                    s.ssl_cert_file (.pemX509 c) } := by
  unfold StoreCertificate at h
  dsimp only at h
  split at h
  · exact absurd h (by simp)
  next h1 =>
    split at h
    · exact absurd h (by simp)
    next h2 =>
      split at h
      · exact absurd h (by simp)
      next h3 =>
        split at h
        · exact absurd h (by simp)
        next h4 =>
          simp only [Except.ok.injEq, Prod.mk.injEq] at h
          obtain ⟨hb, hs⟩ := h
          exact ⟨hb.symm, by simpa using h1, by simpa using h2,
                 by simpa using h3, by simpa using h4, hs.symm⟩

/-- Inversion: any completed (non-raising) `CreateCertificatesWhenNeeded`
run either created nothing — probe-context allocation failed or an
existing certificate loaded — changing no observable state, or created
both files with every external step having succeeded. -/
theorem createCertificatesWhenNeeded_ok_inv (env : OpenSSLEnv)
    (s : PgState) (b : Bool) (s' : PgState)
    (h : CreateCertificatesWhenNeeded env s = .ok (b, s')) :
    (b = false ∧ s'.fs = s.fs ∧ s'.keysGenerated = s.keysGenerated ∧
      s'.certsGenerated = s.certsGenerated ∧
      s'.configStatements = s.configStatements ∧
      s'.reloadCount = s.reloadCount ∧
      s'.ssl_cert_file = s.ssl_cert_file ∧ s'.ssl_key_file = s.ssl_key_file ∧
      (env.sslCtxNewOk = false ∨
        certificateChainFileLoads (s.fs s.ssl_cert_file) = true)) ∨
    (b = true ∧ env.sslCtxNewOk = true ∧
      certificateChainFileLoads (s.fs s.ssl_cert_file) = false ∧
      env.evpPkeyNewOk = true ∧ env.bnSetWordOk = true ∧
      env.rsaGenerateKeyOk = true ∧ env.evpPkeyAssignOk = true ∧
      env.x509NewOk = true ∧ env.x509SignOk = true ∧
      env.fopenOk s.ssl_key_file = true ∧ env.pemWritePrivateKeyOk = true ∧
      env.fopenOk s.ssl_cert_file = true ∧ env.pemWriteX509Ok = true ∧
      s' = credentialsCreatedState env s) := by
  unfold CreateCertificatesWhenNeeded EnsureReleaseOpenSSLResource at h
  split at h
  next h1 =>
    simp only [Except.ok.injEq, Prod.mk.injEq] at h
    obtain ⟨hb, hs⟩ := h
    subst hs
    exact Or.inl ⟨hb.symm, rfl, rfl, rfl, rfl, rfl, rfl, rfl,
      Or.inl (by simpa using h1)⟩
  next h1 =>
    dsimp only at h
    split at h
    next h2 =>
      simp only [Except.ok.injEq, Prod.mk.injEq] at h
      obtain ⟨hb, hs⟩ := h
      exact Or.inl ⟨hb.symm, by rw [← hs], by rw [← hs], by rw [← hs],
        by rw [← hs], by rw [← hs], by rw [← hs], by rw [← hs], Or.inr h2⟩
    next h2 =>
      split at h
      · exact absurd h (by simp)
      next privateKey s2 hg =>
        obtain ⟨f1, f2, f3, f4, hk, hs2⟩ :=
          generatePrivateKey_ok_inv env _ privateKey s2 hg
        split at h
        · exact absurd h (by simp)
        next certificate s3 hc =>
          obtain ⟨f5, f6, hcert, hs3⟩ :=
            createCertificate_ok_inv env privateKey _ certificate s3 hc
          split at h
          · exact absurd h (by simp)
          next certificateWritten s4 hw =>
            obtain ⟨hbw, f7, f8, f9, f10, hs4⟩ :=
              storeCertificate_ok_inv env privateKey certificate _
                certificateWritten s4 hw
            subst hbw
            simp only [Bool.not_true, Bool.false_eq_true, if_false,
              Except.ok.injEq, Prod.mk.injEq, reduceIte] at h
            obtain ⟨hb, hs⟩ := h
            subst hs2
            subst hs3
            subst hs4
            subst hk
            subst hcert
            refine Or.inr ⟨hb.symm, by simpa using h1, by simpa using h2,
              f1, f2, f3, f4, f5, f6, f7, f8, f9, f10, ?_⟩
            rw [← hs]
            simp [credentialsCreatedState]

/-- Forward run: when the probe context allocates, no certificate loads,
and every generation/persistence step succeeds,
`CreateCertificatesWhenNeeded` reports creation and produces exactly the
two credential files. -/
theorem createCertificatesWhenNeeded_success (env : OpenSSLEnv) (s : PgState)
    (hctx : env.sslCtxNewOk = true)
    (hload : certificateChainFileLoads (s.fs s.ssl_cert_file) = false)
    (f1 : env.evpPkeyNewOk = true) (f2 : env.bnSetWordOk = true)
    (f3 : env.rsaGenerateKeyOk = true) (f4 : env.evpPkeyAssignOk = true)
    (f5 : env.x509NewOk = true) (f6 : env.x509SignOk = true)
    (f7 : env.fopenOk s.ssl_key_file = true)
    (f8 : env.pemWritePrivateKeyOk = true)
    (f9 : env.fopenOk s.ssl_cert_file = true)
    (f10 : env.pemWriteX509Ok = true) :
    CreateCertificatesWhenNeeded env s = .ok (true, credentialsCreatedState env s) := by
  simp [CreateCertificatesWhenNeeded, GeneratePrivateKey, CreateCertificate,
    StoreCertificate, EnsureReleaseOpenSSLResource, hctx, hload, f1, f2, f3,
    f4, f5, f6, f7, f8, f9, f10, credentialsCreatedState, keyBuilt, certBuilt,
    X509_blank]

/-- `CreateCertificatesWhenNeeded` with an existing loadable certificate:
returns false and changes no file and no counter. -/
theorem createCertificatesWhenNeeded_skip (env : OpenSSLEnv) (s : PgState)
    (hload : certificateChainFileLoads (s.fs s.ssl_cert_file) = true) :
    ∃ s', CreateCertificatesWhenNeeded env s = .ok (false, s') ∧
      s'.fs = s.fs ∧ s'.keysGenerated = s.keysGenerated ∧
      s'.certsGenerated = s.certsGenerated := by
  cases hctx : env.sslCtxNewOk
  · exact ⟨s, by simp [CreateCertificatesWhenNeeded, hctx], rfl, rfl, rfl⟩
  · refine ⟨EnsureReleaseOpenSSLResource .sslCtxRes s, ?_, rfl, rfl, rfl⟩
    simp [CreateCertificatesWhenNeeded, EnsureReleaseOpenSSLResource, hctx, hload]

end EnableSSL

namespace EnableSSL

/-- Claim C2: `ShouldUseAutoSSL` returns true iff the outward-connection
security-mode string is exactly "require", and false for every other
string; it is a pure function of the read state (no side effects). -/
theorem shouldUseAutoSSL_iff_require (s : PgState) :
    ShouldUseAutoSSL s = true ↔ s.sslmode = "require" := by
  unfold ShouldUseAutoSSL
  split <;> simp_all

/-- Claim C5: every key pair returned by `GeneratePrivateKey` is an RSA key
with modulus size exactly 2048 bits and public exponent exactly 65537;
the definition takes no size/exponent inputs, so these are fixed. -/
theorem generatePrivateKey_rsa_2048_65537 (env : OpenSSLEnv) (s s' : PgState)
    (key : EVP_PKEY) (h : GeneratePrivateKey env s = .ok (key, s')) :
    ∃ rsa : RSAKey, key.assigned = some rsa ∧
      rsa.modulusBits = 2048 ∧ rsa.pubExponent = 65537 := by
  unfold GeneratePrivateKey at h
  split at h
  · exact absurd h (by simp)
  · split at h
    · exact absurd h (by simp)
    · split at h
      · exact absurd h (by simp)
      · split at h
        · exact absurd h (by simp)
        · simp only [Except.ok.injEq, Prod.mk.injEq] at h
          obtain ⟨hkey, -⟩ := h
          subst hkey
          exact ⟨_, rfl, rfl, rfl⟩

/-- Witness for C5 at a concrete successful generation. -/
theorem generatePrivateKey_rsa_2048_65537_witness :
    (GeneratePrivateKey envOK s0 =
      .ok (keyOK, { s0 with registered := [.evpPkeyRes, .bignumRes],
                            keysGenerated := 1 })) ∧
    (∃ rsa : RSAKey, keyOK.assigned = some rsa ∧
      rsa.modulusBits = 2048 ∧ rsa.pubExponent = 65537) :=
  ⟨rfl, generatePrivateKey_rsa_2048_65537 envOK s0 _ keyOK rfl⟩

/-- Claim C4: every certificate returned by `CreateCertificate` has serial
number 1, not-before and not-after both equal to the time of creation
(zero-length validity window), issuer name equal to subject name, subject
common name equal to `CITUS_AUTO_SSL_COMMON_NAME`, carries the public part
of the supplied key, and is signed with SHA-256 by that same key, so
`X509_verify` succeeds against it. -/
theorem createCertificate_shape (env : OpenSSLEnv) (key : EVP_PKEY)
    (s s' : PgState) (c : X509)
    (h : CreateCertificate env key s = .ok (c, s')) :
    c.serialNumber = 1 ∧
    c.notBefore = env.currentTime ∧ c.notAfter = env.currentTime ∧
    c.issuerName = c.subjectName ∧
    c.subjectName.commonName = some CITUS_AUTO_SSL_COMMON_NAME ∧
    c.pubkey = key.pub ∧
    c.signature = some { alg := "sha256", signer := key } ∧
    X509_verify c key = true := by
  unfold CreateCertificate at h
  split at h
  · exact absurd h (by simp)
  · split at h
    · exact absurd h (by simp)
    · simp only [Except.ok.injEq, Prod.mk.injEq] at h
      obtain ⟨hc, -⟩ := h
      subst hc
      refine ⟨rfl, rfl, rfl, rfl, rfl, rfl, rfl, ?_⟩
      simp [X509_verify]

/-- Witness for C4 at a concrete successful build. -/
theorem createCertificate_shape_witness :
    (CreateCertificate envOK keyOK s0 =
      .ok (certOK, { s0 with registered := [.x509Res], certsGenerated := 1 })) ∧
    (certOK.serialNumber = 1 ∧
     certOK.notBefore = envOK.currentTime ∧ certOK.notAfter = envOK.currentTime ∧
     certOK.issuerName = certOK.subjectName ∧
     certOK.subjectName.commonName = some CITUS_AUTO_SSL_COMMON_NAME ∧
     certOK.pubkey = keyOK.pub ∧
     certOK.signature = some { alg := "sha256", signer := keyOK } ∧
     X509_verify certOK keyOK = true) :=
  ⟨rfl, createCertificate_shape envOK keyOK s0 _ certOK rfl⟩

/-- Claim C6: `StoreCertificate` writes the private key before the
certificate; when the key path is writable but the certificate path is
not, the run raises the certificate-file open failure, yet the key file
has already been written (and nothing else changed), so the overall
operation reports failure, not success. -/
theorem storeCertificate_key_written_then_failure (env : OpenSSLEnv)
    (key : EVP_PKEY) (c : X509) (s : PgState)
    (hkopen : env.fopenOk s.ssl_key_file = true)
    (hkpem : env.pemWritePrivateKeyOk = true)
    (hcopen : env.fopenOk s.ssl_cert_file = false) :
    ∃ s', StoreCertificate env key c s =
        .error (.certFileOpenFailure s.ssl_cert_file, s') ∧
      s'.fs s.ssl_key_file = some (.pemPrivateKey key) ∧
      ∀ p, p ≠ s.ssl_key_file → s'.fs p = s.fs p := by
  refine ⟨{ s with fs := fsWrite s.fs s.ssl_key_file (.pemPrivateKey key) }, ?_, ?_, ?_⟩
  · simp [StoreCertificate, hkopen, hkpem, hcopen]
  · simp [fsWrite]
  · intro p hp
    simp [fsWrite, hp]

/-- Witness for C6 at a concrete unwritable certificate path. -/
theorem storeCertificate_key_written_then_failure_witness :
    (envC6.fopenOk s0.ssl_key_file = true ∧
     envC6.pemWritePrivateKeyOk = true ∧
     envC6.fopenOk s0.ssl_cert_file = false) ∧
    (∃ s', StoreCertificate envC6 keyOK certOK s0 =
        .error (.certFileOpenFailure s0.ssl_cert_file, s') ∧
      s'.fs s0.ssl_key_file = some (.pemPrivateKey keyOK) ∧
      ∀ p, p ≠ s0.ssl_key_file → s'.fs p = s0.fs p) :=
  ⟨⟨by decide, rfl, by decide⟩,
   storeCertificate_key_written_then_failure envC6 keyOK certOK s0
     (by decide) rfl (by decide)⟩

/-- Registered-resource evolution of `GeneratePrivateKey`: whatever the
outcome, either nothing was appended (the key-wrapper allocation failed)
or exactly the key wrapper and the exponent were appended; in particular
the raw RSA key material is never registered. -/
theorem generatePrivateKey_registered (env : OpenSSLEnv) (s : PgState) :
    (finalState (GeneratePrivateKey env s)).registered = s.registered ∨
    (finalState (GeneratePrivateKey env s)).registered =
      s.registered ++ [.evpPkeyRes] ++ [.bignumRes] := by
  unfold GeneratePrivateKey EnsureReleaseOpenSSLResource
  split
  · exact Or.inl rfl
  · split
    · exact Or.inr rfl
    · split
      · exact Or.inr rfl
      · split
        · exact Or.inr rfl
        · exact Or.inr rfl

/-- Registered-resource evolution of `CreateCertificate`: nothing appended
(allocation failed) or exactly the certificate structure. -/
theorem createCertificate_registered (env : OpenSSLEnv) (key : EVP_PKEY)
    (s : PgState) :
    (finalState (CreateCertificate env key s)).registered = s.registered ∨
    (finalState (CreateCertificate env key s)).registered =
      s.registered ++ [.x509Res] := by
  unfold CreateCertificate EnsureReleaseOpenSSLResource
  split
  · exact Or.inl rfl
  · split
    · exact Or.inr rfl
    · exact Or.inr rfl

/-- `StoreCertificate` registers nothing with the resource guard. -/
theorem storeCertificate_registered (env : OpenSSLEnv) (key : EVP_PKEY)
    (c : X509) (s : PgState) :
    (finalState (StoreCertificate env key c s)).registered = s.registered := by
  unfold StoreCertificate
  dsimp only
  split
  · rfl
  · split
    · rfl
    · split
      · rfl
      · split
        · rfl
        · rfl

/-- Registered-resource evolution of the whole
`CreateCertificatesWhenNeeded` run, whether it completes or raises: the
appended registrations are a prefix of probe context, key wrapper,
exponent, certificate structure — each at most once, never the raw RSA
key material. -/
theorem createCertificatesWhenNeeded_registered (env : OpenSSLEnv)
    (s : PgState) :
    (finalState (CreateCertificatesWhenNeeded env s)).registered = s.registered ∨
    (finalState (CreateCertificatesWhenNeeded env s)).registered =
      s.registered ++ [.sslCtxRes] ∨
    (finalState (CreateCertificatesWhenNeeded env s)).registered =
      s.registered ++ [.sslCtxRes, .evpPkeyRes, .bignumRes] ∨
    (finalState (CreateCertificatesWhenNeeded env s)).registered =
      s.registered ++ [.sslCtxRes, .evpPkeyRes, .bignumRes, .x509Res] := by
  unfold CreateCertificatesWhenNeeded EnsureReleaseOpenSSLResource
  split
  · exact Or.inl rfl
  · dsimp only
    split
    · exact Or.inr (Or.inl (by simp [finalState]))
    · split
      next es heq =>
        obtain ⟨e2, sE⟩ := es
        have hr := generatePrivateKey_registered env
          { s with registered := s.registered ++ [.sslCtxRes] }
        rw [heq] at hr
        simp only [finalState] at hr ⊢
        rcases hr with hr | hr
        · exact Or.inr (Or.inl (by simp [hr]))
        · exact Or.inr (Or.inr (Or.inl (by simp [hr])))
      next k s2 heq =>
        obtain ⟨-, -, -, -, -, hs2⟩ :=
          generatePrivateKey_ok_inv env _ k s2 heq
        have hreg2 : s2.registered = s.registered ++ [.sslCtxRes]
            ++ [.evpPkeyRes] ++ [.bignumRes] := by
          rw [hs2]
        split
        next es heq2 =>
          obtain ⟨e3, sE⟩ := es
          have hr := createCertificate_registered env k s2
          rw [heq2] at hr
          simp only [finalState] at hr ⊢
          rcases hr with hr | hr
          · exact Or.inr (Or.inr (Or.inl (by simp [hr, hreg2])))
          · exact Or.inr (Or.inr (Or.inr (by simp [hr, hreg2])))
        next c s3 heq2 =>
          obtain ⟨-, -, -, hs3⟩ :=
            createCertificate_ok_inv env k s2 c s3 heq2
          have hreg3 : s3.registered = s2.registered ++ [.x509Res] := by
            rw [hs3]
          split
          next es heq3 =>
            obtain ⟨e4, sE⟩ := es
            have hr := storeCertificate_registered env k c s3
            rw [heq3] at hr
            simp only [finalState] at hr ⊢
            exact Or.inr (Or.inr (Or.inr (by simp [hr, hreg3, hreg2])))
          next cw s4 heq3 =>
            have hr := storeCertificate_registered env k c s3
            rw [heq3] at hr
            simp only [finalState] at hr
            refine Or.inr (Or.inr (Or.inr ?_))
            cases cw <;> simp [finalState, hr, hreg3, hreg2]

/-- With the generation path reached (probe context allocated, no loadable
certificate on disk), a failure at any generation or persistence step
means the run cannot complete with a return value: it must raise. -/
theorem createCertificatesWhenNeeded_not_ok (env : OpenSSLEnv) (s : PgState)
    (hctx : env.sslCtxNewOk = true)
    (hload : certificateChainFileLoads (s.fs s.ssl_cert_file) = false)
    (hfail : env.evpPkeyNewOk = false ∨ env.bnSetWordOk = false ∨
      env.rsaGenerateKeyOk = false ∨ env.evpPkeyAssignOk = false ∨
      env.x509NewOk = false ∨ env.x509SignOk = false ∨
      env.fopenOk s.ssl_key_file = false ∨ env.pemWritePrivateKeyOk = false ∨
      env.fopenOk s.ssl_cert_file = false ∨ env.pemWriteX509Ok = false) :
    ∀ (b : Bool) (s' : PgState), CreateCertificatesWhenNeeded env s ≠ .ok (b, s') := by
  intro b s' hok
  rcases createCertificatesWhenNeeded_ok_inv env s b s' hok with h' | h'
  · rcases h'.2.2.2.2.2.2.2.2 with hc | hc
    · rw [hctx] at hc
      exact absurd hc (by simp)
    · rw [hload] at hc
      exact absurd hc (by simp)
  · obtain ⟨-, -, -, g1, g2, g3, g4, g5, g6, g7, g8, g9, g10, -⟩ := h'
    rcases hfail with f|f|f|f|f|f|f|f|f|f <;> simp_all

/-- Claim C1: `CreateCertificatesWhenNeeded` is idempotent and
skip-if-present: whenever the configured certificate file already holds a
loadable certificate it returns false (already present) generating no key
and no certificate and writing to no file; and immediately after a
successful creating run, a second call (whose probe context allocates)
finds a certificate that loads successfully and leaves every file
byte-for-byte unchanged. -/
theorem ensureCredentials_skip_if_present :
    (∀ (env : OpenSSLEnv) (s : PgState),
      certificateChainFileLoads (s.fs s.ssl_cert_file) = true →
      ∃ s', CreateCertificatesWhenNeeded env s = .ok (false, s') ∧
        s'.fs = s.fs ∧ s'.keysGenerated = s.keysGenerated ∧
        s'.certsGenerated = s.certsGenerated) ∧
    (∀ (env envSecond : OpenSSLEnv) (s s1 : PgState),
      CreateCertificatesWhenNeeded env s = .ok (true, s1) →
      envSecond.sslCtxNewOk = true →
      certificateChainFileLoads (s1.fs s1.ssl_cert_file) = true ∧
      ∃ s2, CreateCertificatesWhenNeeded envSecond s1 = .ok (false, s2) ∧
        s2.fs = s1.fs ∧ s2.keysGenerated = s1.keysGenerated ∧
        s2.certsGenerated = s1.certsGenerated) := by
  constructor
  · intro env s hload
    exact createCertificatesWhenNeeded_skip env s hload
  · intro env envSecond s s1 h hctx2
    rcases createCertificatesWhenNeeded_ok_inv env s true s1 h with h' | h'
    · exact absurd h'.1 (by simp)
    · obtain ⟨-, -, -, -, -, -, -, -, -, -, -, -, -, hs1⟩ := h'
      have hload : certificateChainFileLoads (s1.fs s1.ssl_cert_file) = true := by
        rw [hs1]
        simp [credentialsCreatedState, fsWrite, certificateChainFileLoads]
      exact ⟨hload, createCertificatesWhenNeeded_skip envSecond s1 hload⟩

/-- Witness for C1: skip on a disk that has a certificate, and a full
create-then-skip round trip from an empty disk. -/
theorem ensureCredentials_skip_if_present_witness :
    (certificateChainFileLoads (sCert.fs sCert.ssl_cert_file) = true ∧
     ∃ s', CreateCertificatesWhenNeeded envOK sCert = .ok (false, s') ∧
       s'.fs = sCert.fs ∧ s'.keysGenerated = sCert.keysGenerated ∧
       s'.certsGenerated = sCert.certsGenerated) ∧
    (CreateCertificatesWhenNeeded envOK s0 = .ok (true, sFinal) ∧
     envOK.sslCtxNewOk = true ∧
     certificateChainFileLoads (sFinal.fs sFinal.ssl_cert_file) = true ∧
     ∃ s2, CreateCertificatesWhenNeeded envOK sFinal = .ok (false, s2) ∧
       s2.fs = sFinal.fs ∧ s2.keysGenerated = sFinal.keysGenerated ∧
       s2.certsGenerated = sFinal.certsGenerated) :=
  ⟨⟨by decide, ensureCredentials_skip_if_present.1 envOK sCert (by decide)⟩,
   ⟨rfl, rfl, ensureCredentials_skip_if_present.2 envOK envOK s0 sFinal rfl rfl⟩⟩

/-- Claim C3: from a state with no parseable certificate, sslmode exactly
"require" and ssl off — with distinct configured paths and every external
step succeeding — `citus_setup_ssl` terminates with ssl=on persisted to
the stored configuration, exactly one key file and one matching
certificate file created, and exactly one reload request; and when ssl is
already on, or sslmode is not "require", it changes nothing at all. -/
theorem citus_setup_ssl_bootstrap :
    (∀ (env : OpenSSLEnv) (s : PgState),
      s.EnableSSL = false → s.sslmode = "require" →
      certificateChainFileLoads (s.fs s.ssl_cert_file) = false →
      s.ssl_key_file ≠ s.ssl_cert_file →
      env.sslCtxNewOk = true → env.evpPkeyNewOk = true → env.bnSetWordOk = true →
      env.rsaGenerateKeyOk = true → env.evpPkeyAssignOk = true →
      env.x509NewOk = true → env.x509SignOk = true →
      env.fopenOk s.ssl_key_file = true → env.pemWritePrivateKeyOk = true →
      env.fopenOk s.ssl_cert_file = true → env.pemWriteX509Ok = true →
      ∃ s' key cert,
        citus_setup_ssl env s = .ok s' ∧
        s'.configStatements = s.configStatements ++ [ENABLE_SSL_QUERY] ∧
        s'.reloadCount = s.reloadCount + 1 ∧
        s'.fs s.ssl_key_file = some (.pemPrivateKey key) ∧
        s'.fs s.ssl_cert_file = some (.pemX509 cert) ∧
        cert.pubkey = key.pub ∧
        cert.signature = some { alg := "sha256", signer := key } ∧
        (∀ p, p ≠ s.ssl_key_file → p ≠ s.ssl_cert_file → s'.fs p = s.fs p) ∧
        s'.keysGenerated = s.keysGenerated + 1 ∧
        s'.certsGenerated = s.certsGenerated + 1) ∧
    (∀ (env : OpenSSLEnv) (s : PgState), s.EnableSSL = true →
      citus_setup_ssl env s = .ok s) ∧
    (∀ (env : OpenSSLEnv) (s : PgState), s.sslmode ≠ "require" →
      citus_setup_ssl env s = .ok s) := by
  refine ⟨?_, ?_, ?_⟩
  · intro env s hE hm hload hne hctx f1 f2 f3 f4 f5 f6 f7 f8 f9 f10
    have hrun := createCertificatesWhenNeeded_success env
      { s with configStatements := s.configStatements ++ [ENABLE_SSL_QUERY] }
      hctx hload f1 f2 f3 f4 f5 f6 f7 f8 f9 f10
    have hcond : (!s.EnableSSL && ShouldUseAutoSSL s) = true := by
      simp [hE, ShouldUseAutoSSL, hm]
    refine ⟨{ credentialsCreatedState env
        { s with configStatements := s.configStatements ++ [ENABLE_SSL_QUERY] }
        with reloadCount := s.reloadCount + 1 },
      keyBuilt env, certBuilt env (keyBuilt env),
      ?_, rfl, rfl, ?_, ?_, rfl, rfl, ?_, rfl, rfl⟩
    · rw [citus_setup_ssl, if_pos hcond]
      dsimp only
      rw [hrun]
      rfl
    · simp [credentialsCreatedState, fsWrite, hne]
    · simp [credentialsCreatedState, fsWrite]
    · intro p h1 h2
      simp [credentialsCreatedState, fsWrite, h1, h2]
  · intro env s hE
    simp [citus_setup_ssl, hE]
  · intro env s hm
    simp [citus_setup_ssl, ShouldUseAutoSSL, hm]

/-- Witness for C3 at the fresh node with every external step succeeding. -/
theorem citus_setup_ssl_bootstrap_witness :
    (s0.EnableSSL = false ∧ s0.sslmode = "require" ∧
     certificateChainFileLoads (s0.fs s0.ssl_cert_file) = false ∧
     s0.ssl_key_file ≠ s0.ssl_cert_file ∧
     envOK.sslCtxNewOk = true ∧ envOK.evpPkeyNewOk = true ∧
     envOK.bnSetWordOk = true ∧ envOK.rsaGenerateKeyOk = true ∧
     envOK.evpPkeyAssignOk = true ∧ envOK.x509NewOk = true ∧
     envOK.x509SignOk = true ∧ envOK.fopenOk s0.ssl_key_file = true ∧
     envOK.pemWritePrivateKeyOk = true ∧ envOK.fopenOk s0.ssl_cert_file = true ∧
     envOK.pemWriteX509Ok = true) ∧
    (∃ s' key cert,
      citus_setup_ssl envOK s0 = .ok s' ∧
      s'.configStatements = s0.configStatements ++ [ENABLE_SSL_QUERY] ∧
      s'.reloadCount = s0.reloadCount + 1 ∧
      s'.fs s0.ssl_key_file = some (.pemPrivateKey key) ∧
      s'.fs s0.ssl_cert_file = some (.pemX509 cert) ∧
      cert.pubkey = key.pub ∧
      cert.signature = some { alg := "sha256", signer := key } ∧
      (∀ p, p ≠ s0.ssl_key_file → p ≠ s0.ssl_cert_file → s'.fs p = s0.fs p) ∧
      s'.keysGenerated = s0.keysGenerated + 1 ∧
      s'.certsGenerated = s0.certsGenerated + 1) :=
  ⟨⟨rfl, rfl, by decide, by decide, rfl, rfl, rfl, rfl, rfl, rfl, rfl, rfl,
    rfl, rfl, rfl⟩,
   citus_setup_ssl_bootstrap.1 envOK s0 rfl rfl (by decide) (by decide)
     rfl rfl rfl rfl rfl rfl rfl rfl rfl rfl rfl⟩

/-- Counterexample to C7 as stated: the raw RSA key material is never
registered with the resource guard — neither on a fully successful
generation run, nor on a run that fails at `EVP_PKEY_assign_RSA` (where
the raw key material has been generated yet the guard will not release
it). -/
theorem rsa_never_registered_counterexample :
    (CreateCertificatesWhenNeeded envOK s0 = .ok (true, sFinal) ∧
     OpenSSLResource.rsaRes ∉ scopeTeardownReleases sFinal) ∧
    (CreateCertificatesWhenNeeded envAssignFail s0 =
       .error (.rsaAssignFailure,
         { s0 with registered := [.sslCtxRes, .evpPkeyRes, .bignumRes] }) ∧
     OpenSSLResource.rsaRes ∉ scopeTeardownReleases
       { s0 with registered := [.sslCtxRes, .evpPkeyRes, .bignumRes] }) :=
  ⟨⟨rfl, by decide⟩, ⟨rfl, by decide⟩⟩

/-- Amended C7: every guard-tracked allocation — the transient probe
context, the key wrapper, the exponent big-number and the certificate
structure — is registered exactly once at its allocation site, and hence
released exactly once by the scope teardown, regardless of which later
step failed; the raw RSA key material, however, is never registered with
the resource guard (on success it is released only transitively through
the key wrapper; on generation/assignment failure the guard does not
release it).  The conclusion pins the registered list exactly on every
path: nothing when the probe context fails to allocate; exactly the probe
context when the certificate loads or the key wrapper fails to allocate;
exactly context+wrapper+exponent when exponent setup, key generation,
assignment or certificate allocation fails; and exactly
context+wrapper+exponent+certificate whenever the certificate structure
allocates, no matter how signing or persistence then fare. -/
theorem resourceGuard_registration_amended (env : OpenSSLEnv) (s : PgState)
    (h : s.registered = []) :
    (env.sslCtxNewOk = false →
      (finalState (CreateCertificatesWhenNeeded env s)).registered = []) ∧
    (env.sslCtxNewOk = true →
      certificateChainFileLoads (s.fs s.ssl_cert_file) = true →
      (finalState (CreateCertificatesWhenNeeded env s)).registered =
        [.sslCtxRes]) ∧
    (env.sslCtxNewOk = true →
      certificateChainFileLoads (s.fs s.ssl_cert_file) = false →
      env.evpPkeyNewOk = false →
      (finalState (CreateCertificatesWhenNeeded env s)).registered =
        [.sslCtxRes]) ∧
    (env.sslCtxNewOk = true →
      certificateChainFileLoads (s.fs s.ssl_cert_file) = false →
      env.evpPkeyNewOk = true →
      (env.bnSetWordOk = false ∨ env.rsaGenerateKeyOk = false ∨
       env.evpPkeyAssignOk = false ∨ env.x509NewOk = false) →
      (finalState (CreateCertificatesWhenNeeded env s)).registered =
        [.sslCtxRes, .evpPkeyRes, .bignumRes]) ∧
    (env.sslCtxNewOk = true →
      certificateChainFileLoads (s.fs s.ssl_cert_file) = false →
      env.evpPkeyNewOk = true → env.bnSetWordOk = true →
      env.rsaGenerateKeyOk = true → env.evpPkeyAssignOk = true →
      env.x509NewOk = true →
      (finalState (CreateCertificatesWhenNeeded env s)).registered =
        [.sslCtxRes, .evpPkeyRes, .bignumRes, .x509Res]) ∧
    (scopeTeardownReleases
      (finalState (CreateCertificatesWhenNeeded env s))).count
        OpenSSLResource.rsaRes = 0 ∧
    (∀ r ∈ (finalState (CreateCertificatesWhenNeeded env s)).registered,
      (scopeTeardownReleases
        (finalState (CreateCertificatesWhenNeeded env s))).count r = 1) := by
  have hd := createCertificatesWhenNeeded_registered env s
  rw [h] at hd
  simp only [List.nil_append] at hd
  refine ⟨?_, ?_, ?_, ?_, ?_, ?_, ?_⟩
  · intro hctx
    simp [CreateCertificatesWhenNeeded, hctx, finalState, h]
  · intro hctx hload
    simp [CreateCertificatesWhenNeeded, EnsureReleaseOpenSSLResource, hctx,
      hload, finalState, h]
  · intro hctx hload h3
    simp [CreateCertificatesWhenNeeded, EnsureReleaseOpenSSLResource,
      GeneratePrivateKey, hctx, hload, h3, finalState, h]
  · intro hctx hload h3 h4
    cases hb : env.bnSetWordOk <;> cases hrg : env.rsaGenerateKeyOk <;>
      cases ha : env.evpPkeyAssignOk <;> cases hx : env.x509NewOk <;>
      simp_all [CreateCertificatesWhenNeeded, EnsureReleaseOpenSSLResource,
        GeneratePrivateKey, CreateCertificate, finalState]
  · intro hctx hload h3 hb hrg ha hx
    cases hsg : env.x509SignOk <;>
      cases hok : env.fopenOk s.ssl_key_file <;>
      cases hpk : env.pemWritePrivateKeyOk <;>
      cases hoc : env.fopenOk s.ssl_cert_file <;>
      cases hpc : env.pemWriteX509Ok <;>
      simp_all [CreateCertificatesWhenNeeded, EnsureReleaseOpenSSLResource,
        GeneratePrivateKey, CreateCertificate, StoreCertificate, finalState]
  · rcases hd with hd | hd | hd | hd <;> simp [scopeTeardownReleases, hd]
  · intro r hr
    rcases hd with hd | hd | hd | hd <;>
      (rw [hd] at hr
       simp only [scopeTeardownReleases]
       rw [hd]
       fin_cases hr <;> decide)

/-- Witness for the amended C7 at a fresh scope with a successful run. -/
theorem resourceGuard_registration_amended_witness :
    s0.registered = [] ∧
    ((envOK.sslCtxNewOk = false →
       (finalState (CreateCertificatesWhenNeeded envOK s0)).registered = []) ∧
     (envOK.sslCtxNewOk = true →
       certificateChainFileLoads (s0.fs s0.ssl_cert_file) = true →
       (finalState (CreateCertificatesWhenNeeded envOK s0)).registered =
         [.sslCtxRes]) ∧
     (envOK.sslCtxNewOk = true →
       certificateChainFileLoads (s0.fs s0.ssl_cert_file) = false →
       envOK.evpPkeyNewOk = false →
       (finalState (CreateCertificatesWhenNeeded envOK s0)).registered =
         [.sslCtxRes]) ∧
     (envOK.sslCtxNewOk = true →
       certificateChainFileLoads (s0.fs s0.ssl_cert_file) = false →
       envOK.evpPkeyNewOk = true →
       (envOK.bnSetWordOk = false ∨ envOK.rsaGenerateKeyOk = false ∨
        envOK.evpPkeyAssignOk = false ∨ envOK.x509NewOk = false) →
       (finalState (CreateCertificatesWhenNeeded envOK s0)).registered =
         [.sslCtxRes, .evpPkeyRes, .bignumRes]) ∧
     (envOK.sslCtxNewOk = true →
       certificateChainFileLoads (s0.fs s0.ssl_cert_file) = false →
       envOK.evpPkeyNewOk = true → envOK.bnSetWordOk = true →
       envOK.rsaGenerateKeyOk = true → envOK.evpPkeyAssignOk = true →
       envOK.x509NewOk = true →
       (finalState (CreateCertificatesWhenNeeded envOK s0)).registered =
         [.sslCtxRes, .evpPkeyRes, .bignumRes, .x509Res]) ∧
     (scopeTeardownReleases
       (finalState (CreateCertificatesWhenNeeded envOK s0))).count
         OpenSSLResource.rsaRes = 0 ∧
     (∀ r ∈ (finalState (CreateCertificatesWhenNeeded envOK s0)).registered,
       (scopeTeardownReleases
         (finalState (CreateCertificatesWhenNeeded envOK s0))).count r = 1)) :=
  ⟨rfl, resourceGuard_registration_amended envOK s0 rfl⟩

/-- Claim C8: once the generation path is reached, every failure during
key generation, certificate generation or persistence is fatal: the run
raises (modelling transaction abort) and never returns a non-error
result; the error also propagates out of `citus_setup_ssl`. -/
theorem generation_failures_abort (env : OpenSSLEnv) (s : PgState)
    (hctx : env.sslCtxNewOk = true)
    (hload : certificateChainFileLoads (s.fs s.ssl_cert_file) = false)
    (hfail : env.evpPkeyNewOk = false ∨ env.bnSetWordOk = false ∨
      env.rsaGenerateKeyOk = false ∨ env.evpPkeyAssignOk = false ∨
      env.x509NewOk = false ∨ env.x509SignOk = false ∨
      env.fopenOk s.ssl_key_file = false ∨ env.pemWritePrivateKeyOk = false ∨
      env.fopenOk s.ssl_cert_file = false ∨ env.pemWriteX509Ok = false) :
    (∃ e s1, CreateCertificatesWhenNeeded env s = .error (e, s1)) ∧
    (s.EnableSSL = false → s.sslmode = "require" →
      ∃ e s2, citus_setup_ssl env s = .error (e, s2)) := by
  have hno := createCertificatesWhenNeeded_not_ok env s hctx hload hfail
  constructor
  · cases hres : CreateCertificatesWhenNeeded env s with
    | error e => exact ⟨e.1, e.2, rfl⟩
    | ok p => exact absurd hres (hno p.1 p.2)
  · intro hE hm
    have hcond : (!s.EnableSSL && ShouldUseAutoSSL s) = true := by
      simp [hE, ShouldUseAutoSSL, hm]
    have hno2 := createCertificatesWhenNeeded_not_ok env
      { s with configStatements := s.configStatements ++ [ENABLE_SSL_QUERY] }
      hctx hload hfail
    cases hres : CreateCertificatesWhenNeeded env
        { s with configStatements := s.configStatements ++ [ENABLE_SSL_QUERY] } with
    | error e =>
        refine ⟨e.1, e.2, ?_⟩
        rw [citus_setup_ssl, if_pos hcond]
        dsimp only
        rw [hres]
    | ok p => exact absurd hres (hno2 p.1 p.2)

/-- Witness for C8: signing fails on a fresh node. -/
theorem generation_failures_abort_witness :
    (envSignFail.sslCtxNewOk = true ∧
     certificateChainFileLoads (s0.fs s0.ssl_cert_file) = false ∧
     envSignFail.x509SignOk = false) ∧
    ((∃ e s1, CreateCertificatesWhenNeeded envSignFail s0 = .error (e, s1)) ∧
     (s0.EnableSSL = false → s0.sslmode = "require" →
      ∃ e s2, citus_setup_ssl envSignFail s0 = .error (e, s2))) :=
  ⟨⟨rfl, by decide, rfl⟩,
   generation_failures_abort envSignFail s0 rfl (by decide)
     (Or.inr (Or.inr (Or.inr (Or.inr (Or.inr (Or.inl rfl))))))⟩

/-- Claim C9: `citus_reset_default_for_node_conninfo` persists exactly the
statement resetting citus.node_conninfo to sslmode=prefer and requests
exactly one configuration reload; it writes no cryptographic material and
touches no file.  The source function does this unconditionally (the
upgrade-path precondition is checked by its caller), so in particular it
does so under the claim's precondition. -/
theorem citus_reset_default_behavior (s : PgState) :
    (citus_reset_default_for_node_conninfo s).configStatements =
      s.configStatements ++ [RESET_CITUS_NODE_CONNINFO] ∧
    RESET_CITUS_NODE_CONNINFO =
      "ALTER SYSTEM SET citus.node_conninfo TO \x27sslmode=prefer\x27;" ∧
    (citus_reset_default_for_node_conninfo s).reloadCount = s.reloadCount + 1 ∧
    (citus_reset_default_for_node_conninfo s).fs = s.fs ∧
    (citus_reset_default_for_node_conninfo s).keysGenerated = s.keysGenerated ∧
    (citus_reset_default_for_node_conninfo s).certsGenerated = s.certsGenerated ∧
    (citus_reset_default_for_node_conninfo s).registered = s.registered ∧
    (citus_reset_default_for_node_conninfo s).EnableSSL = s.EnableSSL :=
  ⟨rfl, rfl, rfl, rfl, rfl, rfl, rfl, rfl⟩

/-- Claim C10 (implicit): if `SSL_CTX_new` returns null,
`CreateCertificatesWhenNeeded` returns false without raising, without
checking for or creating any credentials, and `citus_setup_ssl` then
completes normally with ssl=on persisted and a reload requested while no
key file and no certificate file exist. -/
theorem sslCtxNew_failure_silent (env : OpenSSLEnv) (s : PgState)
    (hctx : env.sslCtxNewOk = false)
    (hE : s.EnableSSL = false) (hm : s.sslmode = "require")
    (hkey : s.fs s.ssl_key_file = none) (hcert : s.fs s.ssl_cert_file = none) :
    CreateCertificatesWhenNeeded env s = .ok (false, s) ∧
    ∃ s', citus_setup_ssl env s = .ok s' ∧
      s'.configStatements = s.configStatements ++ [ENABLE_SSL_QUERY] ∧
      s'.reloadCount = s.reloadCount + 1 ∧
      s'.fs s.ssl_key_file = none ∧ s'.fs s.ssl_cert_file = none ∧
      s'.keysGenerated = s.keysGenerated ∧ s'.certsGenerated = s.certsGenerated ∧
      s'.registered = s.registered := by
  have h1 : CreateCertificatesWhenNeeded env s = .ok (false, s) := by
    simp [CreateCertificatesWhenNeeded, hctx]
  refine ⟨h1,
    { s with configStatements := s.configStatements ++ [ENABLE_SSL_QUERY],
             reloadCount := s.reloadCount + 1 },
    ?_, rfl, rfl, hkey, hcert, rfl, rfl, rfl⟩
  have hcond : (!s.EnableSSL && ShouldUseAutoSSL s) = true := by
    simp [hE, ShouldUseAutoSSL, hm]
  have h2 : CreateCertificatesWhenNeeded env
      { s with configStatements := s.configStatements ++ [ENABLE_SSL_QUERY] } =
      .ok (false,
        { s with configStatements := s.configStatements ++ [ENABLE_SSL_QUERY] }) := by
    simp [CreateCertificatesWhenNeeded, hctx]
  rw [citus_setup_ssl, if_pos hcond]
  dsimp only
  rw [h2]

/-- Witness for C10: probe-context allocation fails on a fresh node. -/
theorem sslCtxNew_failure_silent_witness :
    (envCtxFail.sslCtxNewOk = false ∧ s0.EnableSSL = false ∧
     s0.sslmode = "require" ∧ s0.fs s0.ssl_key_file = none ∧
     s0.fs s0.ssl_cert_file = none) ∧
    (CreateCertificatesWhenNeeded envCtxFail s0 = .ok (false, s0) ∧
     ∃ s', citus_setup_ssl envCtxFail s0 = .ok s' ∧
       s'.configStatements = s0.configStatements ++ [ENABLE_SSL_QUERY] ∧
       s'.reloadCount = s0.reloadCount + 1 ∧
       s'.fs s0.ssl_key_file = none ∧ s'.fs s0.ssl_cert_file = none ∧
       s'.keysGenerated = s0.keysGenerated ∧
       s'.certsGenerated = s0.certsGenerated ∧
       s'.registered = s0.registered) :=
  ⟨⟨rfl, rfl, rfl, rfl, rfl⟩,
   sslCtxNew_failure_silent envCtxFail s0 rfl rfl rfl rfl rfl⟩

end EnableSSL
